import Mathlib

/-!
Verification of the pycoin-framework WebSocket client and heartbeat scheduler.

This file gives a shallow embedding, in Lean 4, of the connection state
machine of `src/utils/websocket.py` (class `WebSocketClient`), of the
scheduler of `src/utils/heartbeat.py` (class `HeartBeat`), and of the
message dispatch of `src/exchange/binance/binance_spot_websocket.py`
(class `BinanceSpotWebSocketBase`), and proves properties of the embedded
code.

Modelling conventions:
  * Each Python method becomes a Lean function from the object state (plus
    the inputs the environment decides: handshake outcome, transport
    outcome, interleavings during an `await`) to the new object state plus
    a record of its observable effects (return value, hooks invoked,
    delays waited, warnings logged).
  * `await asyncio.sleep(...)` points are modelled by a `duringSleep`
    parameter: an arbitrary transformation of the client state describing
    what other coroutines did while this one was suspended.  `id` means
    nothing interleaved.
  * Exceptions that a method can propagate are modelled with `Except`;
    a method that catches every exception internally returns plain data.
-/

/-- Embeds `ConnectionState` (src/utils/websocket.py, lines 25-31). -/
inductive ConnectionState where
  | disconnected
  | connecting
  | connected
  | reconnecting
  | closed
deriving DecidableEq

/-- Embeds the state of a `WebSocketClient` instance relevant to the
connection lifecycle (src/utils/websocket.py, lines 64-76):
`_state`, `_reconnect_count`, `_auto_reconnect`, `_max_reconnect_attempts`.
The url/headers/proxy and the aiohttp session/socket objects are left to
the environment (the handshake outcome parameter of `connect`). -/
structure WebSocketClient where
  state : ConnectionState
  reconnect_count : Nat
  auto_reconnect : Bool
  max_reconnect_attempts : Nat
deriving DecidableEq

/-- Outcome of the `ws_connect` handshake, decided by the network. -/
inductive ConnectOutcome where
  | success
  | failure
deriving DecidableEq

/-- Observable result of one call to `WebSocketClient.connect`. -/
structure ConnectRes where
  ok : Bool
  client : WebSocketClient
  on_connect_invoked : Bool
  entered_connecting : Bool
deriving DecidableEq

namespace WebSocketClient

/-- Embeds `WebSocketClient.connect` (src/utils/websocket.py, lines
93-139).  Guard: if the state is already CONNECTING or CONNECTED, log a
warning and return False without touching anything.  Otherwise set the
state to CONNECTING, attempt the handshake; on success set CONNECTED,
reset `_reconnect_count` to 0 and invoke `on_connect`; on any exception
set DISCONNECTED and return False (the exception is caught, never
propagated). -/
def connect (c : WebSocketClient) (outcome : ConnectOutcome) : ConnectRes :=
  if c.state = ConnectionState.connecting ∨ c.state = ConnectionState.connected then
    { ok := false, client := c, on_connect_invoked := false, entered_connecting := false }
  else
    match outcome with
    | ConnectOutcome.success =>
        { ok := true
          client := { c with state := ConnectionState.connected, reconnect_count := 0 }
          on_connect_invoked := true
          entered_connecting := true }
    | ConnectOutcome.failure =>
        { ok := false
          client := { c with state := ConnectionState.disconnected }
          on_connect_invoked := false
          entered_connecting := true }

/-- Embeds `WebSocketClient.disconnect` (src/utils/websocket.py, lines
141-164): sets the state to CLOSED; the task unregistration and the
socket/session closing act on other objects and are not part of the
client state modelled here. -/
def disconnect (c : WebSocketClient) : WebSocketClient :=
  { c with state := ConnectionState.closed }

/-- Observable result of one call to `WebSocketClient._reconnect`. -/
structure ReconnectRes where
  client : WebSocketClient
  attempted : Bool
  wait_time : Option Nat
  exhausted : Bool
  connectRes : Option ConnectRes
deriving DecidableEq

/-- Embeds `WebSocketClient._reconnect` (src/utils/websocket.py, lines
254-272).  No-op if the state is already RECONNECTING; if a maximum is
configured (> 0) and the counter has reached it, log exhaustion and give
up; otherwise set RECONNECTING, increment `_reconnect_count`, wait
`min(_reconnect_count * 2, 30)` seconds, then call `connect()`.  The code
performs no state check between the sleep and the `connect()` call; the
`duringSleep` parameter is what the rest of the program did to the client
while this coroutine was suspended in `asyncio.sleep`. -/
def reconnect (c : WebSocketClient) (duringSleep : WebSocketClient → WebSocketClient)
    (outcome : ConnectOutcome) : ReconnectRes :=
  if c.state = ConnectionState.reconnecting then
    { client := c, attempted := false, wait_time := none, exhausted := false, connectRes := none }
  else if 0 < c.max_reconnect_attempts ∧ c.max_reconnect_attempts ≤ c.reconnect_count then
    { client := c, attempted := false, wait_time := none, exhausted := true, connectRes := none }
  else
    let c1 : WebSocketClient :=
      { c with state := ConnectionState.reconnecting, reconnect_count := c.reconnect_count + 1 }
    let wait : Nat := min (c1.reconnect_count * 2) 30
    let c2 := duringSleep c1
    let r := connect c2 outcome
    { client := r.client, attempted := true, wait_time := some wait,
      exhausted := false, connectRes := some r }

/-- Observable result of one call to `WebSocketClient._handle_disconnect`. -/
structure HandleDisconnectRes where
  client : WebSocketClient
  on_disconnect_invoked : Bool
  reconnectRes : Option ReconnectRes
deriving DecidableEq

/-- Embeds `WebSocketClient._handle_disconnect` (src/utils/websocket.py,
lines 240-252): if the state is CLOSED, return immediately; otherwise set
DISCONNECTED, invoke `on_disconnect`, and if auto-reconnect is enabled
run `_reconnect`. -/
def handle_disconnect (c : WebSocketClient)
    (duringSleep : WebSocketClient → WebSocketClient)
    (outcome : ConnectOutcome) : HandleDisconnectRes :=
  if c.state = ConnectionState.closed then
    { client := c, on_disconnect_invoked := false, reconnectRes := none }
  else
    let c1 : WebSocketClient := { c with state := ConnectionState.disconnected }
    if c1.auto_reconnect then
      let r := reconnect c1 duringSleep outcome
      { client := r.client, on_disconnect_invoked := true, reconnectRes := some r }
    else
      { client := c1, on_disconnect_invoked := true, reconnectRes := none }

end WebSocketClient

namespace WebSocketClient

/-- One disconnection event: the receive loop (or the liveness check)
detects the drop and runs `_handle_disconnect`; the reconnect handshake
fails and nothing interleaves during the backoff sleep. -/
def failEvent (c : WebSocketClient) : HandleDisconnectRes :=
  handle_disconnect c id ConnectOutcome.failure

/-- Client state after `k` disconnection events with failing handshakes. -/
def afterFailEvents (c : WebSocketClient) : Nat → WebSocketClient
  | 0 => c
  | k + 1 => afterFailEvents (failEvent c).client k

/-- The backoff delay waited before the Nth reconnect attempt (1-indexed)
in a run of repeatedly failing reconnects starting from `c`. -/
def nthWait (c : WebSocketClient) (n : Nat) : Option Nat :=
  (failEvent (afterFailEvents c (n - 1))).reconnectRes.bind ReconnectRes.wait_time

/-- Cumulative observation of `n` disconnection events with failing
handshakes: final client, number of connect attempts issued by the
reconnect procedure, and whether exhaustion was ever logged. -/
def failTrace : WebSocketClient → Nat → WebSocketClient × Nat × Bool
  | c, 0 => (c, 0, false)
  | c, n + 1 =>
      let h := failEvent c
      let attempts : Nat := match h.reconnectRes with
        | some r => if r.attempted then 1 else 0
        | none => 0
      let exh : Bool := match h.reconnectRes with
        | some r => r.exhausted
        | none => false
      let rest := failTrace h.client n
      (rest.1, attempts + rest.2.1, exh || rest.2.2)

/-- The client state after one failed reconnect attempt: Disconnected,
with the attempt counter incremented. -/
def afterFailedAttempt (c : WebSocketClient) : WebSocketClient :=
  { c with state := ConnectionState.disconnected,
           reconnect_count := c.reconnect_count + 1 }

end WebSocketClient

/-- A freshly constructed client with auto-reconnect and unlimited
attempts (src/utils/websocket.py, lines 64-76 defaults). -/
def freshClient : WebSocketClient :=
  { state := ConnectionState.disconnected, reconnect_count := 0,
    auto_reconnect := true, max_reconnect_attempts := 0 }

/-- C3 scenario: a client configured with max_reconnect_attempts = 2,
right after its connection dropped. -/
def max2Client : WebSocketClient :=
  { state := ConnectionState.disconnected, reconnect_count := 0,
    auto_reconnect := true, max_reconnect_attempts := 2 }

/-- C4 sanity check input: a connected client. -/
def connectedClient : WebSocketClient :=
  { state := ConnectionState.connected, reconnect_count := 0,
    auto_reconnect := true, max_reconnect_attempts := 0 }

/-- C1 scenario: a disconnected client with auto-reconnect and unlimited
attempts, as after a connection drop. -/
def droppedClient : WebSocketClient :=
  { state := ConnectionState.disconnected, reconnect_count := 0,
    auto_reconnect := true, max_reconnect_attempts := 0 }

/-- C1 scenario run: `_reconnect` runs, and while it is suspended in the
backoff sleep, `disconnect()` is called; the handshake of any later
connect attempt fails (the session was closed by `disconnect`). -/
def c1Run : WebSocketClient.ReconnectRes :=
  WebSocketClient.reconnect droppedClient WebSocketClient.disconnect ConnectOutcome.failure

/-- Embeds one entry of the task dictionary (src/utils/heartbeat.py,
lines 177-182): the coroutine function together with its bound
args/kwargs is abstracted as the opaque identifier `func`; `interval`
keeps the Python int (callers may pass any integer). -/
structure HeartBeat.Task where
  func : Nat
  interval : Int
deriving DecidableEq

/-- Embeds the state of a `HeartBeat` instance (src/utils/heartbeat.py,
lines 30-44): `_count`, `_is_running`, `_tasks` (an insertion-ordered
dict, here an association list), and the configured print/broadcast
intervals (which only control log output).  `tools.get_uuid1()` is
modelled by the fresh-id source `next_id`: each call hands out the
current id and bumps it, since uuid1 values are pairwise distinct.
The tick period `_interval = 1` is the delay passed to `call_later`
and does not appear in the state transitions. -/
structure HeartBeat where
  count : Nat
  is_running : Bool
  tasks : List (Nat × HeartBeat.Task)
  next_id : Nat
  print_interval : Nat
  broadcast_interval : Nat
deriving DecidableEq

namespace HeartBeat

/-- Embeds `HeartBeat.start` (src/utils/heartbeat.py, lines 66-79): if
already running, log a warning and return; otherwise set the running
flag, reset the tick counter to 0 and enter the ticker loop. -/
def start (hb : HeartBeat) : HeartBeat :=
  if hb.is_running then hb
  else { hb with is_running := true, count := 0 }

/-- Embeds `HeartBeat.stop` (src/utils/heartbeat.py, lines 81-88):
clears the running flag and logs; registered tasks are kept. -/
def stop (hb : HeartBeat) : HeartBeat :=
  { hb with is_running := false }

/-- Embeds `HeartBeat._execute_tasks` (src/utils/heartbeat.py, lines
121-137): walk the task dict in order and, for every task whose interval
divides the current count, create one asyncio task running its callback.
Returns the ids of the tasks launched on this tick, in table order. -/
def execute_tasks (hb : HeartBeat) : List Nat :=
  (hb.tasks.filter (fun t => (hb.count : Int) % t.2.interval == 0)).map Prod.fst

/-- Embeds `HeartBeat.ticker` (src/utils/heartbeat.py, lines 90-119):
if not running, return; otherwise increment the counter, print the
heartbeat and broadcast liveness per configuration (log output only),
execute the due tasks, and schedule the next tick.  Returns the new state
and the ids of the tasks launched on this tick. -/
def ticker (hb : HeartBeat) : HeartBeat × List Nat :=
  if hb.is_running = false then (hb, [])
  else
    let hb1 : HeartBeat := { hb with count := hb.count + 1 }
    (hb1, execute_tasks hb1)

/-- Embeds `HeartBeat.register` (src/utils/heartbeat.py, lines 151-184):
raises ValueError on a non-positive interval before anything is touched
(in particular before `get_uuid1` is called); otherwise draws a fresh
task id, stores the task under it and returns the id. -/
def register (hb : HeartBeat) (func : Nat) (interval : Int) :
    Except String Nat × HeartBeat :=
  if interval ≤ 0 then
    (Except.error "ValueError: interval must be greater than 0", hb)
  else
    let task_id := hb.next_id
    (Except.ok task_id,
     { hb with
        tasks := hb.tasks ++ [(task_id, { func := func, interval := interval })],
        next_id := hb.next_id + 1 })

end HeartBeat

/-- The scheduler state after `n` consecutive ticks. -/
def tickN (hb : HeartBeat) : Nat → HeartBeat
  | 0 => hb
  | n + 1 => (HeartBeat.ticker (tickN hb n)).1

/-- The launch lists of the first `n` ticks, in order. -/
def runTicks : HeartBeat → Nat → HeartBeat × List (List Nat)
  | hb, 0 => (hb, [])
  | hb, n + 1 =>
      let r := HeartBeat.ticker hb
      let rest := runTicks r.1 n
      (rest.1, r.2 :: rest.2)

/-- A freshly constructed scheduler (src/utils/heartbeat.py, lines 30-44,
with print and broadcast disabled as by the default configuration). -/
def freshHeartBeat : HeartBeat :=
  { count := 0, is_running := false, tasks := [], next_id := 0,
    print_interval := 0, broadcast_interval := 0 }

/-- C6 scenario: task A (callback 1) at interval 3 and task B
(callback 2) at interval 5 registered on a fresh scheduler, which is then
started.  A receives task id 0 and B task id 1. -/
def scenarioHB : HeartBeat :=
  HeartBeat.start
    (HeartBeat.register (HeartBeat.register freshHeartBeat 1 3).2 2 5).2

/-- Outcome of one transport write (`self._ws.send_json` /
`self._ws.send_str`), decided by the network. -/
inductive SendOutcome where
  | ok
  | raise
deriving DecidableEq

/-- The transport write itself: raising is modelled as `Except.error`. -/
def sendRaw : SendOutcome → Except String Unit
  | SendOutcome.ok => Except.ok ()
  | SendOutcome.raise => Except.error "transport error"

/-- Observable result of `send_json` / `send_text`: what the call
returns (an `Except.error` here would mean an exception escaped the
method) and whether the transport write was attempted at all. -/
structure SendRes where
  result : Except String Bool
  transport_invoked : Bool

/-- Embeds the `is_connected` property (src/utils/websocket.py, lines
88-91): the recorded state is CONNECTED, the socket object exists, and
the socket's own closed flag is off. -/
def WebSocketClient.is_connected (c : WebSocketClient)
    (ws_exists ws_closed : Bool) : Bool :=
  (c.state == ConnectionState.connected) && ws_exists && !ws_closed

/-- Embeds `WebSocketClient.send_json` (src/utils/websocket.py, lines
301-321): warn and return False without touching the transport when not
connected; otherwise attempt the transport write, catching any exception
into a logged failure (return False).  No exception crosses the method
boundary. -/
def WebSocketClient.send_json (c : WebSocketClient) (ws_exists ws_closed : Bool)
    (outcome : SendOutcome) : SendRes :=
  if c.is_connected ws_exists ws_closed = false then
    { result := Except.ok false, transport_invoked := false }
  else
    match sendRaw outcome with
    | Except.ok _ => { result := Except.ok true, transport_invoked := true }
    | Except.error _ => { result := Except.ok false, transport_invoked := true }

/-- Embeds `WebSocketClient.send_text` (src/utils/websocket.py, lines
323-343): identical control flow to `send_json`, writing raw text via
`send_str`. -/
def WebSocketClient.send_text (c : WebSocketClient) (ws_exists ws_closed : Bool)
    (outcome : SendOutcome) : SendRes :=
  if c.is_connected ws_exists ws_closed = false then
    { result := Except.ok false, transport_invoked := false }
  else
    match sendRaw outcome with
    | Except.ok _ => { result := Except.ok true, transport_invoked := true }
    | Except.error _ => { result := Except.ok false, transport_invoked := true }

/-- A Python value stored in `heartbeat_msg` (src/utils/websocket.py,
line 79 annotates it `Optional[Union[str, Dict]]`, but the attribute is
dynamically typed and adapters may assign any object).  Dict payloads are
modelled by their entries, a callable payload generator by a function
producing a payload. -/
inductive HBPayload where
  | pyNone
  | pyStr (s : String)
  | pyDict (entries : List (String × String))
  | pyCallable (gen : Unit → HBPayload)

/-- Python truthiness of a `heartbeat_msg` value: None, the empty string
and the empty dict are falsy; a function object is always truthy. -/
def HBPayload.truthy : HBPayload → Bool
  | HBPayload.pyNone => false
  | HBPayload.pyStr s => !(s == "")
  | HBPayload.pyDict entries => !entries.isEmpty
  | HBPayload.pyCallable _ => true

/-- What one `_send_heartbeat` invocation did. -/
inductive HBSendAction where
  | idle
  | sentJson (entries : List (String × String))
  | sentText (s : String)
  | warnedUnsupported
deriving DecidableEq

/-- Embeds `WebSocketClient._send_heartbeat` (src/utils/websocket.py,
lines 284-299): return if not connected or the payload is falsy; a dict
payload is sent as JSON, a str payload as text; a payload of any other
type is dropped with an unsupported-type warning.  Transport errors are
caught and logged and do not change which branch was taken. -/
def WebSocketClient.send_heartbeat (connected : Bool) (msg : HBPayload) :
    HBSendAction :=
  if !connected || !msg.truthy then HBSendAction.idle
  else
    match msg with
    | HBPayload.pyDict entries => HBSendAction.sentJson entries
    | HBPayload.pyStr s => HBSendAction.sentText s
    | _ => HBSendAction.warnedUnsupported

/-- C8 input: a callback-style heartbeat payload generator, recomputing a
fresh payload on every call (as the Gate.io ping with its dynamic
timestamp requires). -/
def dynHeartbeatGen : HBPayload :=
  HBPayload.pyCallable (fun _ => HBPayload.pyDict [("channel", "spot.ping")])

/-- Embeds the shape of a decoded incoming frame as inspected by
`BinanceSpotWebSocketBase.process` (src/exchange/binance/
binance_spot_websocket.py, lines 217-276): which keys the dict carries
and the values the dispatch reads; payloads are abstracted as strings. -/
structure BinanceMsg where
  has_result : Bool
  has_id : Bool
  has_error : Bool
  stream : Option String
  data : Option String
  event_type : Option String
deriving DecidableEq

/-- A recorded callback invocation of the subscription registry. -/
inductive Invocation where
  | onStream (key : String) (data : String)
  | onDefault (msg : BinanceMsg)
deriving DecidableEq

/-- Observable result of one `process` call: the callback invocations in
order, whether an unmatched-key frame was logged at low severity and
dropped, and whether an exception escaped (`process` wraps its whole body
in a try/except, and each callback call in another). -/
structure ProcessRes where
  invoked : List Invocation
  unmatched_dropped : Bool
  cb_error_logged : Bool
  raised : Bool
deriving DecidableEq

/-- Embeds `BinanceSpotWebSocketBase.process` (src/exchange/binance/
binance_spot_websocket.py, lines 217-276) on an already-decoded dict
frame.  `subs` is the `_subscriptions` registry (stream name → callback,
callbacks abstracted by ids); `cb_raises` says whether the invoked
callback raises (its exception is caught and logged where it is called).
Dispatch order as in the code: subscription responses (`result` and `id`
both present), then error frames, then combined-stream frames (`stream`
and `data` both present), then single-stream events (`e` present). -/
def BinanceSpotWebSocketBase.process (subs : List (String × Nat))
    (cb_raises : Bool) (m : BinanceMsg) : ProcessRes :=
  if m.has_result && m.has_id then
    { invoked := [], unmatched_dropped := false, cb_error_logged := false, raised := false }
  else if m.has_error then
    { invoked := [], unmatched_dropped := false, cb_error_logged := false, raised := false }
  else
    match m.stream, m.data with
    | some s, some d =>
        match List.lookup s subs with
        | some _cb =>
            { invoked := [Invocation.onStream s d],
              unmatched_dropped := false, cb_error_logged := cb_raises, raised := false }
        | none =>
            { invoked := [], unmatched_dropped := true,
              cb_error_logged := false, raised := false }
    | _, _ =>
        match m.event_type with
        | some _ =>
            match List.lookup "default" subs with
            | some _cb =>
                { invoked := [Invocation.onDefault m],
                  unmatched_dropped := false, cb_error_logged := cb_raises, raised := false }
            | none =>
                { invoked := [], unmatched_dropped := false,
                  cb_error_logged := false, raised := false }
        | none =>
            { invoked := [], unmatched_dropped := false,
              cb_error_logged := false, raised := false }

/-- A decoded combined-stream data frame with stream key `s` and
payload `d`. -/
def streamMsg (s d : String) : BinanceMsg :=
  { has_result := false, has_id := false, has_error := false,
    stream := some s, data := some d, event_type := none }

/-- C9 witness registry: one registered subscription. -/
def subsEx : List (String × Nat) := [("btcusdt@aggTrade", 1)]

open WebSocketClient in
/-- One failing disconnection event from an unexhausted, auto-reconnect
client: the counter is incremented before the delay is computed, the delay
is `min(count * 2, 30)`, exactly one connect attempt fires, and the client
ends Disconnected with the incremented counter. -/
theorem failEvent_step (c : WebSocketClient)
    (hst : c.state = ConnectionState.disconnected ∨ c.state = ConnectionState.connected)
    (hnotex : ¬(0 < c.max_reconnect_attempts
        ∧ c.max_reconnect_attempts ≤ c.reconnect_count))
    (hauto : c.auto_reconnect = true) :
    failEvent c =
      { client := afterFailedAttempt c
        on_disconnect_invoked := true
        reconnectRes := some
          { client := afterFailedAttempt c
            attempted := true
            wait_time := some (min ((c.reconnect_count + 1) * 2) 30)
            exhausted := false
            connectRes := some
              { ok := false, client := afterFailedAttempt c
                on_connect_invoked := false, entered_connecting := true } } } := by
  rcases hst with h | h <;>
    simp [failEvent, handle_disconnect, WebSocketClient.reconnect, connect,
      afterFailedAttempt, h, hauto, hnotex]

open WebSocketClient in
/-- A disconnection event on a Disconnected client whose reconnect counter
has reached the configured maximum: exhaustion is logged, no connect
attempt fires, and the client is left unchanged. -/
theorem failEvent_exhausted (c : WebSocketClient)
    (hst : c.state = ConnectionState.disconnected)
    (hex : 0 < c.max_reconnect_attempts
        ∧ c.max_reconnect_attempts ≤ c.reconnect_count)
    (hauto : c.auto_reconnect = true) :
    failEvent c =
      { client := c, on_disconnect_invoked := true,
        reconnectRes := some
          { client := c, attempted := false, wait_time := none,
            exhausted := true, connectRes := none } } := by
  cases c with
  | mk st cnt ar mx =>
      subst hst
      simp_all [failEvent, handle_disconnect, WebSocketClient.reconnect]

open WebSocketClient in
/-- Invariant of the failing-reconnect run: after `k` events the counter
has increased by `k` and the client is still Disconnected (or untouched
Connected for `k = 0`), unexhaustible, auto-reconnecting. -/
theorem afterFailEvents_spec (k : Nat) (c : WebSocketClient)
    (hst : c.state = ConnectionState.disconnected ∨ c.state = ConnectionState.connected)
    (hmax : c.max_reconnect_attempts = 0)
    (hauto : c.auto_reconnect = true) :
    (afterFailEvents c k).reconnect_count = c.reconnect_count + k
    ∧ ((afterFailEvents c k).state = ConnectionState.disconnected
        ∨ (afterFailEvents c k).state = ConnectionState.connected)
    ∧ (afterFailEvents c k).max_reconnect_attempts = 0
    ∧ (afterFailEvents c k).auto_reconnect = true := by
  induction k generalizing c with
  | zero => exact ⟨rfl, hst, hmax, hauto⟩
  | succ m ih =>
      have hstep := failEvent_step c hst (by simp [hmax]) hauto
      have hclient : (failEvent c).client = afterFailedAttempt c := by rw [hstep]
      have := ih (failEvent c).client (by rw [hclient]; exact Or.inl rfl)
        (by rw [hclient]; exact hmax) (by rw [hclient]; exact hauto)
      refine ⟨?_, this.2⟩
      have hc : (afterFailEvents c (m + 1)) = afterFailEvents (failEvent c).client m := rfl
      have hcount : (failEvent c).client.reconnect_count = c.reconnect_count + 1 := by
        rw [hclient]; rfl
      rw [hc, this.1, hcount]
      omega

/-- C2: for every N ≥ 1, starting right after a successful connect (which
resets the reconnect counter to 0), the backoff delay waited before the
Nth reconnect attempt equals min(N*2, 30): the counter is incremented
before the delay is computed. -/
theorem c2_backoff_delay (c : WebSocketClient) (N : Nat) (hN : 1 ≤ N)
    (hst : c.state ≠ ConnectionState.connecting ∧ c.state ≠ ConnectionState.connected)
    (hmax : c.max_reconnect_attempts = 0)
    (hauto : c.auto_reconnect = true) :
    (WebSocketClient.connect c ConnectOutcome.success).client.reconnect_count = 0
    ∧ WebSocketClient.nthWait (WebSocketClient.connect c ConnectOutcome.success).client N
        = some (min (N * 2) 30) := by
  have hc : WebSocketClient.connect c ConnectOutcome.success =
      { ok := true
        client := { c with state := ConnectionState.connected, reconnect_count := 0 }
        on_connect_invoked := true
        entered_connecting := true } := by
    rw [WebSocketClient.connect, if_neg (by tauto)]
  refine ⟨by rw [hc], ?_⟩
  rw [hc]
  set c0 : WebSocketClient :=
    { c with state := ConnectionState.connected, reconnect_count := 0 } with hc0
  have hinv := afterFailEvents_spec (N - 1) c0 (Or.inr rfl) (by rw [hc0]; exact hmax)
    (by rw [hc0]; exact hauto)
  have hstep := failEvent_step (WebSocketClient.afterFailEvents c0 (N - 1))
    hinv.2.1 (by simp [hinv.2.2.1]) hinv.2.2.2
  have hwait : (WebSocketClient.failEvent
        (WebSocketClient.afterFailEvents c0 (N - 1))).reconnectRes.bind
        WebSocketClient.ReconnectRes.wait_time =
      some (min (((WebSocketClient.afterFailEvents c0 (N - 1)).reconnect_count + 1) * 2) 30) := by
    rw [hstep]; rfl
  rw [WebSocketClient.nthWait, hwait, hinv.1]
  have : 0 + (N - 1) + 1 = N := by omega
  rw [this]

/-- C2 witness: at N = 16 the delay is capped, min(16*2, 30) = 30. -/
theorem c2_backoff_delay_witness :
    (WebSocketClient.connect freshClient ConnectOutcome.success).client.reconnect_count = 0
    ∧ WebSocketClient.nthWait
        (WebSocketClient.connect freshClient ConnectOutcome.success).client 16
        = some (min (16 * 2) 30) :=
  c2_backoff_delay freshClient 16 (by decide) (by decide) rfl rfl

open WebSocketClient in
/-- Unfolding one failing disconnection event at the head of a trace:
the attempt fires, exhaustion is not logged, and the trace continues from
the client with the incremented counter. -/
theorem failTrace_step_attempt (c : WebSocketClient)
    (hst : c.state = ConnectionState.disconnected ∨ c.state = ConnectionState.connected)
    (hnotex : ¬(0 < c.max_reconnect_attempts
        ∧ c.max_reconnect_attempts ≤ c.reconnect_count))
    (hauto : c.auto_reconnect = true) (n : Nat) :
    failTrace c (n + 1) =
      ((failTrace (afterFailedAttempt c) n).1,
       1 + (failTrace (afterFailedAttempt c) n).2.1,
       false || (failTrace (afterFailedAttempt c) n).2.2) := by
  have h := failEvent_step c hst hnotex hauto
  simp [failTrace, h]

open WebSocketClient in
/-- Once the counter has reached the configured maximum, every further
disconnection event only logs exhaustion: no attempt is ever issued again
and the client no longer changes. -/
theorem failTrace_exhausted (c : WebSocketClient)
    (hst : c.state = ConnectionState.disconnected)
    (hex : 0 < c.max_reconnect_attempts
        ∧ c.max_reconnect_attempts ≤ c.reconnect_count)
    (hauto : c.auto_reconnect = true) :
    ∀ n, failTrace c n = (c, 0, n != 0) := by
  intro n
  induction n with
  | zero => rfl
  | succ m ih =>
      have h := failEvent_exhausted c hst hex hauto
      have hb : ((m + 1 : Nat) != 0) = true := rfl
      simp [failTrace, h, ih, hb]

open WebSocketClient in
/-- C3: with max_reconnect_attempts = 2 and every connect attempt
failing, any run of at least three disconnection events issues exactly
two reconnect attempts, logs exhaustion (with no exception: the procedure
returns normally), never issues a third attempt, and leaves the client
Disconnected. -/
theorem c3_two_attempts_then_exhaustion (n : Nat) (hn : 3 ≤ n) :
    (failTrace max2Client n).2.1 = 2
    ∧ (failTrace max2Client n).2.2 = true
    ∧ (failTrace max2Client n).1.state = ConnectionState.disconnected := by
  obtain ⟨m, rfl⟩ : ∃ m, n = m + 1 + 1 + 1 := ⟨n - 3, by omega⟩
  rw [failTrace_step_attempt max2Client (Or.inl rfl) (by decide) rfl,
    failTrace_step_attempt (afterFailedAttempt max2Client) (Or.inl rfl) (by decide) rfl,
    failTrace_exhausted (afterFailedAttempt (afterFailedAttempt max2Client))
      rfl (by decide) rfl]
  exact ⟨rfl, rfl, rfl⟩

/-- C3 witness: a run of five disconnection events. -/
theorem c3_two_attempts_then_exhaustion_witness :
    (WebSocketClient.failTrace max2Client 5).2.1 = 2
    ∧ (WebSocketClient.failTrace max2Client 5).2.2 = true
    ∧ (WebSocketClient.failTrace max2Client 5).1.state = ConnectionState.disconnected :=
  c3_two_attempts_then_exhaustion 5 (by decide)

/-- C4: calling `connect()` on a client already Connected or Connecting
returns false, leaves the client unchanged, and does not invoke the
`on_connect` hook. -/
theorem c4_connect_idempotency_guard (c : WebSocketClient) (o : ConnectOutcome)
    (h : c.state = ConnectionState.connected ∨ c.state = ConnectionState.connecting) :
    (WebSocketClient.connect c o).ok = false
    ∧ (WebSocketClient.connect c o).client = c
    ∧ (WebSocketClient.connect c o).on_connect_invoked = false := by
  have hg : c.state = ConnectionState.connecting ∨ c.state = ConnectionState.connected := by
    tauto
  rw [WebSocketClient.connect.eq_def, if_pos hg]
  exact ⟨rfl, rfl, rfl⟩

/-- C4 witness: a connected client, with a handshake that would succeed. -/
theorem c4_connect_idempotency_guard_witness :
    (WebSocketClient.connect connectedClient ConnectOutcome.success).ok = false
    ∧ (WebSocketClient.connect connectedClient ConnectOutcome.success).client = connectedClient
    ∧ (WebSocketClient.connect connectedClient ConnectOutcome.success).on_connect_invoked
        = false :=
  c4_connect_idempotency_guard connectedClient ConnectOutcome.success (by decide)

/-- C1: the claim says a `disconnect()` issued during the reconnect
backoff wait prevents the subsequent `connect()` call from ever firing
and every state observed afterwards is CLOSED.  The code violates this:
`_reconnect` resumes after the sleep with no state check and calls
`connect()`, whose guard does not include CLOSED, so the client leaves
CLOSED, re-enters CONNECTING, and ends DISCONNECTED after the failed
handshake. -/
theorem c1_disconnect_during_backoff_not_terminal :
    c1Run.attempted = true
    ∧ c1Run.connectRes.map ConnectRes.entered_connecting = some true
    ∧ c1Run.client.state = ConnectionState.disconnected
    ∧ c1Run.client.state ≠ ConnectionState.closed := by
  refine ⟨rfl, rfl, rfl, ?_⟩
  decide

/-- C5: `register` with a non-positive interval raises a ValueError
synchronously and leaves the scheduler untouched (no task stored, no task
id consumed); with a positive interval it stores exactly one new task
under a fresh id and returns that id. -/
theorem c5_register_contract (hb : HeartBeat) (f : Nat) (i : Int) :
    (i ≤ 0 →
      (HeartBeat.register hb f i).1
          = Except.error "ValueError: interval must be greater than 0"
      ∧ (HeartBeat.register hb f i).2 = hb)
    ∧ (1 ≤ i →
      (HeartBeat.register hb f i).1 = Except.ok hb.next_id
      ∧ (HeartBeat.register hb f i).2.tasks
          = hb.tasks ++ [(hb.next_id, { func := f, interval := i })]
      ∧ (HeartBeat.register hb f i).2.tasks.length = hb.tasks.length + 1
      ∧ (HeartBeat.register hb f i).2.next_id = hb.next_id + 1) := by
  constructor
  · intro h
    rw [HeartBeat.register, if_pos h]
    exact ⟨rfl, rfl⟩
  · intro h
    rw [HeartBeat.register, if_neg (by omega)]
    exact ⟨rfl, rfl, by simp, rfl⟩

/-- C5 witness: interval 0 is rejected without effect; interval 3 stores
exactly one task on the fresh scheduler and returns its id. -/
theorem c5_register_contract_witness :
    ((HeartBeat.register freshHeartBeat 7 0).1
        = Except.error "ValueError: interval must be greater than 0"
      ∧ (HeartBeat.register freshHeartBeat 7 0).2 = freshHeartBeat)
    ∧ ((HeartBeat.register freshHeartBeat 7 3).1 = Except.ok freshHeartBeat.next_id
      ∧ (HeartBeat.register freshHeartBeat 7 3).2.tasks
          = freshHeartBeat.tasks
              ++ [(freshHeartBeat.next_id, { func := 7, interval := 3 })]
      ∧ (HeartBeat.register freshHeartBeat 7 3).2.tasks.length
          = freshHeartBeat.tasks.length + 1
      ∧ (HeartBeat.register freshHeartBeat 7 3).2.next_id
          = freshHeartBeat.next_id + 1) :=
  ⟨(c5_register_contract freshHeartBeat 7 0).1 (by decide),
   (c5_register_contract freshHeartBeat 7 3).2 (by decide)⟩

/-- `ticker` on a running scheduler: the counter is incremented first,
then the tasks due at the new count are launched. -/
theorem ticker_running (hb : HeartBeat) (hrun : hb.is_running = true) :
    HeartBeat.ticker hb =
      ({ hb with count := hb.count + 1 },
       HeartBeat.execute_tasks { hb with count := hb.count + 1 }) := by
  rw [HeartBeat.ticker, if_neg (by simp [hrun])]

/-- Counting an id in the key projection of a filtered association list
with nodup keys: 1 if the entry with that id passes the filter, else 0. -/
theorem count_map_fst_filter (l : List (Nat × HeartBeat.Task))
    (p : Nat × HeartBeat.Task → Bool) (tid : Nat) (t : HeartBeat.Task)
    (hnd : (l.map Prod.fst).Nodup) (hmem : (tid, t) ∈ l) :
    ((l.filter p).map Prod.fst).count tid = if p (tid, t) then 1 else 0 := by
  induction l with
  | nil => cases hmem
  | cons a l ih =>
      rw [List.map_cons, List.nodup_cons] at hnd
      rcases List.mem_cons.mp hmem with heq | hmem2
      · subst heq
        have hzero : ((l.filter p).map Prod.fst).count tid = 0 := by
          refine List.count_eq_zero.mpr (fun hc => ?_)
          rcases List.mem_map.mp hc with ⟨x, hx, hx1⟩
          have hx2 : x.1 ∈ List.map Prod.fst l :=
            List.mem_map_of_mem Prod.fst (List.mem_of_mem_filter hx)
          rw [hx1] at hx2
          exact hnd.1 hx2
        rw [List.filter_cons]
        by_cases hp : p (tid, t)
        · simp [hp, hzero, List.count_cons]
        · simp [hp, hzero]
      · have htid : tid ∈ l.map Prod.fst := List.mem_map_of_mem Prod.fst hmem2
        have hne0 : ¬(a.1 = tid) := fun hc => hnd.1 (by rw [hc]; exact htid)
        have hne : (tid == a.1) = false :=
          beq_eq_false_iff_ne.mpr (fun hc => hne0 hc.symm)
        rw [List.filter_cons]
        by_cases hp : p a
        · simp [hp, List.count_cons, hne, hne0, ih hnd.2 hmem2]
        · simp [hp, ih hnd.2 hmem2]

/-- C6: on a tick of a running scheduler, a registered task is launched
iff its interval divides the new tick count, and then exactly once; and
in the concrete scenario (task A id 0 at interval 3, task B id 1 at
interval 5, fresh scheduler) after 15 ticks A has been launched 5 times
and B 3 times, and both fire on tick 15. -/
theorem c6_tick_divisibility (hb : HeartBeat) (tid : Nat) (t : HeartBeat.Task)
    (hrun : hb.is_running = true)
    (hnd : (hb.tasks.map Prod.fst).Nodup)
    (hmem : (tid, t) ∈ hb.tasks) :
    (((HeartBeat.ticker hb).2).count tid
        = if (((hb.count + 1 : Nat) : Int) % t.interval == 0) then 1 else 0)
    ∧ ((runTicks scenarioHB 15).2.flatten.count 0 = 5
        ∧ (runTicks scenarioHB 15).2.flatten.count 1 = 3
        ∧ 0 ∈ (runTicks scenarioHB 15).2.getLastD []
        ∧ 1 ∈ (runTicks scenarioHB 15).2.getLastD []) := by
  constructor
  · rw [ticker_running hb hrun]
    exact count_map_fst_filter hb.tasks _ tid t hnd hmem
  · decide

/-- C6 witness: task A of the scenario on the scheduler's first tick
(count 1 is not a multiple of 3, so A is launched zero times there). -/
theorem c6_tick_divisibility_witness :
    (((HeartBeat.ticker scenarioHB).2).count 0
        = if (((scenarioHB.count + 1 : Nat) : Int)
              % ({ func := 1, interval := 3 } : HeartBeat.Task).interval == 0)
          then 1 else 0)
    ∧ ((runTicks scenarioHB 15).2.flatten.count 0 = 5
        ∧ (runTicks scenarioHB 15).2.flatten.count 1 = 3
        ∧ 0 ∈ (runTicks scenarioHB 15).2.getLastD []
        ∧ 1 ∈ (runTicks scenarioHB 15).2.getLastD []) :=
  c6_tick_divisibility scenarioHB 0 { func := 1, interval := 3 }
    (by decide) (by decide) (by decide)

/-- Running invariant: ticking never changes the task table or the
running flag, and adds one to the counter per tick. -/
theorem tickN_spec (hb : HeartBeat) (hrun : hb.is_running = true) (k : Nat) :
    (tickN hb k).is_running = true
    ∧ (tickN hb k).tasks = hb.tasks
    ∧ (tickN hb k).count = hb.count + k := by
  induction k with
  | zero => exact ⟨hrun, rfl, rfl⟩
  | succ m ih =>
      have hc : tickN hb (m + 1) = (HeartBeat.ticker (tickN hb m)).1 := rfl
      rw [hc, ticker_running (tickN hb m) ih.1]
      refine ⟨ih.1, ih.2.1, ?_⟩
      show (tickN hb m).count + 1 = hb.count + (m + 1)
      rw [ih.2.2]
      omega

/-- A task whose interval divides the current count is among the ids
launched by `_execute_tasks`. -/
theorem mem_execute_tasks (hb : HeartBeat) (tid : Nat) (t : HeartBeat.Task)
    (hmem : (tid, t) ∈ hb.tasks)
    (hdiv : (((hb.count : Nat) : Int) % t.interval == 0) = true) :
    tid ∈ HeartBeat.execute_tasks hb := by
  rw [HeartBeat.execute_tasks]
  exact List.mem_map.mpr ⟨(tid, t), List.mem_filter.mpr ⟨hmem, hdiv⟩, rfl⟩

/-- C10: `stop` clears only the running flag (tasks, counter and id
source untouched); a following `start` sets the flag back and resets only
the tick counter; every task registered before the stop/start cycle is
still registered afterwards and is launched again on every tick whose
count its interval divides. -/
theorem c10_stop_start_frame (hb : HeartBeat) (tid : Nat) (t : HeartBeat.Task)
    (n : Nat) (hmem : (tid, t) ∈ hb.tasks)
    (hdiv : (((n + 1 : Nat) : Int) % t.interval == 0) = true) :
    (HeartBeat.stop hb).tasks = hb.tasks
    ∧ (HeartBeat.stop hb).count = hb.count
    ∧ (HeartBeat.stop hb).next_id = hb.next_id
    ∧ (HeartBeat.stop hb).is_running = false
    ∧ (HeartBeat.start (HeartBeat.stop hb)).tasks = hb.tasks
    ∧ (HeartBeat.start (HeartBeat.stop hb)).count = 0
    ∧ (HeartBeat.start (HeartBeat.stop hb)).next_id = hb.next_id
    ∧ (HeartBeat.start (HeartBeat.stop hb)).is_running = true
    ∧ tid ∈ (HeartBeat.ticker (tickN (HeartBeat.start (HeartBeat.stop hb)) n)).2 := by
  have hss : HeartBeat.start (HeartBeat.stop hb)
      = { hb with is_running := true, count := 0 } := by
    rw [HeartBeat.stop, HeartBeat.start, if_neg (by simp)]
  rw [hss]
  refine ⟨rfl, rfl, rfl, rfl, rfl, rfl, rfl, rfl, ?_⟩
  set s : HeartBeat := { hb with is_running := true, count := 0 } with hs
  have hspec := tickN_spec s rfl n
  rw [ticker_running (tickN s n) hspec.1]
  show tid ∈ HeartBeat.execute_tasks { tickN s n with count := (tickN s n).count + 1 }
  refine mem_execute_tasks _ tid t ?_ ?_
  · show (tid, t) ∈ (tickN s n).tasks
    rw [hspec.2.1]
    exact hmem
  · show ((((tickN s n).count + 1 : Nat) : Int) % t.interval == 0) = true
    have hcnt : (tickN s n).count = n := by
      rw [hspec.2.2]
      exact Nat.zero_add n
    rw [hcnt]
    exact hdiv

/-- C10 witness: the scenario scheduler stopped and restarted; task A
(id 0, interval 3) is launched again on tick 3 of the restarted run. -/
theorem c10_stop_start_frame_witness :
    (HeartBeat.stop scenarioHB).tasks = scenarioHB.tasks
    ∧ (HeartBeat.stop scenarioHB).count = scenarioHB.count
    ∧ (HeartBeat.stop scenarioHB).next_id = scenarioHB.next_id
    ∧ (HeartBeat.stop scenarioHB).is_running = false
    ∧ (HeartBeat.start (HeartBeat.stop scenarioHB)).tasks = scenarioHB.tasks
    ∧ (HeartBeat.start (HeartBeat.stop scenarioHB)).count = 0
    ∧ (HeartBeat.start (HeartBeat.stop scenarioHB)).next_id = scenarioHB.next_id
    ∧ (HeartBeat.start (HeartBeat.stop scenarioHB)).is_running = true
    ∧ 0 ∈ (HeartBeat.ticker (tickN (HeartBeat.start (HeartBeat.stop scenarioHB)) 2)).2 :=
  c10_stop_start_frame scenarioHB 0 { func := 1, interval := 3 } 2
    (by decide) (by decide)

/-- C7: `send_json` and `send_text` return False without touching the
transport when the client is not connected; when the transport write
raises, the exception is caught and logged and the call returns False;
in no case does an exception escape the method. -/
theorem c7_send_no_raise (c : WebSocketClient) (ws_exists ws_closed : Bool)
    (o : SendOutcome) :
    (c.is_connected ws_exists ws_closed = false →
      WebSocketClient.send_json c ws_exists ws_closed o
          = { result := Except.ok false, transport_invoked := false }
      ∧ WebSocketClient.send_text c ws_exists ws_closed o
          = { result := Except.ok false, transport_invoked := false })
    ∧ (o = SendOutcome.raise →
      (WebSocketClient.send_json c ws_exists ws_closed o).result = Except.ok false
      ∧ (WebSocketClient.send_text c ws_exists ws_closed o).result = Except.ok false)
    ∧ (∀ e : String,
      (WebSocketClient.send_json c ws_exists ws_closed o).result ≠ Except.error e
      ∧ (WebSocketClient.send_text c ws_exists ws_closed o).result ≠ Except.error e) := by
  by_cases h : c.is_connected ws_exists ws_closed = false <;>
    cases o <;>
      simp [WebSocketClient.send_json, WebSocketClient.send_text, sendRaw, h]

/-- C7 witness: a connected client whose transport write raises — both
send methods return False and no exception escapes. -/
theorem c7_send_no_raise_witness :
    (WebSocketClient.send_json connectedClient true false SendOutcome.raise).result
        = Except.ok false
    ∧ (WebSocketClient.send_text connectedClient true false SendOutcome.raise).result
        = Except.ok false :=
  (c7_send_no_raise connectedClient true false SendOutcome.raise).2.1 rfl

/-- C8 counterexample: with the client connected and a callback-style
payload generator stored in `heartbeat_msg`, `_send_heartbeat` does not
invoke the generator and sends nothing — the payload falls into the
unsupported-type warning branch (src/utils/websocket.py, line 297)
instead of being recomputed and sent. -/
theorem c8_callable_payload_dropped :
    WebSocketClient.send_heartbeat true dynHeartbeatGen
        = HBSendAction.warnedUnsupported
    ∧ WebSocketClient.send_heartbeat true dynHeartbeatGen
        ≠ HBSendAction.sentJson [("channel", "spot.ping")] :=
  ⟨rfl, by decide⟩

/-- C8 amended: the base heartbeat sender supports only static payloads —
a non-empty dict payload is sent as JSON and a non-empty str payload as
text on every invocation — while a callable payload generator is never
invoked: it is dropped with an unsupported-type warning.  (Adapters that
need a dynamically recomputed payload override `_send_heartbeat` instead,
as the Gate.io clients do.) -/
theorem c8_static_payloads_only (gen : Unit → HBPayload)
    (entries : List (String × String)) (s : String)
    (hd : entries ≠ []) (hs : s ≠ "") :
    WebSocketClient.send_heartbeat true (HBPayload.pyCallable gen)
        = HBSendAction.warnedUnsupported
    ∧ WebSocketClient.send_heartbeat true (HBPayload.pyDict entries)
        = HBSendAction.sentJson entries
    ∧ WebSocketClient.send_heartbeat true (HBPayload.pyStr s)
        = HBSendAction.sentText s := by
  refine ⟨rfl, ?_, ?_⟩
  · cases entries with
    | nil => exact absurd rfl hd
    | cons a l => rfl
  · have he : (s == "") = false := beq_eq_false_iff_ne.mpr hs
    simp [WebSocketClient.send_heartbeat, HBPayload.truthy, he]

/-- C8 witness: a concrete generator, dict and text payload. -/
theorem c8_static_payloads_only_witness :
    WebSocketClient.send_heartbeat true
        (HBPayload.pyCallable (fun _ => HBPayload.pyStr "ping"))
        = HBSendAction.warnedUnsupported
    ∧ WebSocketClient.send_heartbeat true (HBPayload.pyDict [("op", "ping")])
        = HBSendAction.sentJson [("op", "ping")]
    ∧ WebSocketClient.send_heartbeat true (HBPayload.pyStr "ping")
        = HBSendAction.sentText "ping" :=
  c8_static_payloads_only (fun _ => HBPayload.pyStr "ping") [("op", "ping")] "ping"
    (by decide) (by decide)

/-- C9: a decoded combined-stream frame whose key has no registered
callback invokes nothing, raises nothing, and is dropped with a
low-severity log; a frame whose key is registered invokes that callback
exactly once with the decoded payload — and if the callback raises, the
exception is caught and logged rather than propagated. -/
theorem c9_dispatch_by_key (subs : List (String × Nat)) (cb_raises : Bool)
    (s d : String) :
    (List.lookup s subs = none →
      BinanceSpotWebSocketBase.process subs cb_raises (streamMsg s d)
        = { invoked := [], unmatched_dropped := true,
            cb_error_logged := false, raised := false })
    ∧ (∀ cb, List.lookup s subs = some cb →
      BinanceSpotWebSocketBase.process subs cb_raises (streamMsg s d)
        = { invoked := [Invocation.onStream s d], unmatched_dropped := false,
            cb_error_logged := cb_raises, raised := false }) := by
  constructor
  · intro h
    simp [BinanceSpotWebSocketBase.process, streamMsg, h]
  · intro cb h
    simp [BinanceSpotWebSocketBase.process, streamMsg, h]

/-- C9 witness: the registered key invokes its callback once with the
payload; an unregistered key is dropped without error. -/
theorem c9_dispatch_by_key_witness :
    (BinanceSpotWebSocketBase.process subsEx false
        (streamMsg "btcusdt@aggTrade" "payload")
      = { invoked := [Invocation.onStream "btcusdt@aggTrade" "payload"],
          unmatched_dropped := false, cb_error_logged := false, raised := false })
    ∧ (BinanceSpotWebSocketBase.process subsEx false
        (streamMsg "ethusdt@ticker" "payload")
      = { invoked := [], unmatched_dropped := true,
          cb_error_logged := false, raised := false }) :=
  ⟨(c9_dispatch_by_key subsEx false "btcusdt@aggTrade" "payload").2 1 (by decide),
   (c9_dispatch_by_key subsEx false "ethusdt@ticker" "payload").1 (by decide)⟩
